import Mathlib

/-!
Shallow embedding of the two Anchor programs of the smart-tourist repository:
`programs/emergency-alert/src/lib.rs` and
`programs/temporary-access-nft/src/lib.rs`.

Each instruction handler is modelled as a pure function from the program's
persisted state (the singleton config plus the PDA-addressed record maps) and
its arguments to `Except Error (State × List Event)`.  Solana transactions are
atomic: a failed instruction (a failed Anchor account constraint, a failed
`require!`, or an arithmetic panic) commits nothing, so the `.error` branch
carries no state and no events.  Anchor validates the account structs before
the handler body runs, so account existence checks (`init` / account
deserialization) and `constraint = ...` checks come before the body's
`require!` checks, in the order the accounts are declared.

`u64` counters are modelled as `Nat` together with the checked-arithmetic
semantics of Anchor builds (`overflow-checks = true` in the generated
workspace profile, which is not under the two source files): `+= 1` panics on
overflow, aborting the transaction, modelled as an `Overflow` error.
Timestamps (`i64` from `Clock::get()`) are modelled as `Int`; each handler
takes the transaction's clock value `now` as an argument.  `Pubkey` is an
abstract identity modelled as `Nat`; `[u8; 32]` is an opaque byte list.
-/

namespace SmartTourist

abbrev Pubkey := Nat

def U64_MOD : Nat := 2 ^ 64

/-! ## Emergency Alert program (`programs/emergency-alert/src/lib.rs`) -/

/-- Account `EmergencyAlert`: the singleton registry (authority + counter).
The `bump` field is a PDA-derivation detail and is not modelled. -/
structure EmergencyAlertConfig where
  authority : Pubkey
  alert_counter : Nat
  deriving DecidableEq, Repr

/-- Account `Alert`: one alert record, addressed by its `alert_id`. -/
structure Alert where
  alert_id : Nat
  tourist : Pubkey
  alert_type : Nat
  location : String
  description : String
  timestamp : Int
  is_active : Bool
  deriving DecidableEq, Repr

/-- Account `EmergencyContact`, addressed by its `contact_type` seed. -/
structure EmergencyContact where
  contact_type : String
  contact_address : Pubkey
  authority : Pubkey
  deriving DecidableEq, Repr

/-- The persisted state of the emergency-alert program: the optional singleton
config and the two PDA families.  PDA seeds are injective in the natural key
(`alert_counter.to_le_bytes` resp. `contact_type.as_bytes`), so the account
space is modelled as maps keyed by that natural key. -/
structure AlertState where
  config : Option EmergencyAlertConfig
  alerts : Nat → Option Alert
  contacts : String → Option EmergencyContact

/-- Events emitted by `emit!` in the emergency-alert program. -/
inductive AlertEvent where
  | AlertTriggered (alert_id : Nat) (tourist : Pubkey) (alert_type : Nat)
      (location : String) (description : String) (timestamp : Int)
  | AlertResolved (alert_id : Nat) (tourist : Pubkey) (resolved_at : Int)
  | EmergencyContactAdded (contact_type : String) (contact_address : Pubkey)
  deriving DecidableEq, Repr

/-- Failure modes of the emergency-alert program: the program's `ErrorCode`
variants plus the Anchor account-validation failures (`init` on an occupied
address, a missing account, a raw `constraint`) and checked-arithmetic panic. -/
inductive AlertError where
  | InvalidAlertType
  | AlertAlreadyResolved
  | Unauthorized
  | ConstraintViolation
  | RecordAlreadyExists
  | AccountNotFound
  | AlreadyInit
  | NotInit
  | Overflow
  deriving DecidableEq, Repr

/-- Handler `initialize`: creates the singleton `EmergencyAlert` config
(`init` fails if it already exists) with `authority = caller`,
`alert_counter = 0`. -/
def initAlertRegistry (s : AlertState) (caller : Pubkey) :
    Except AlertError (AlertState × List AlertEvent) :=
  match s.config with
  | some _ => .error .AlreadyInit
  | none =>
      .ok ({ s with config := some { authority := caller, alert_counter := 0 } }, [])

/-- Handler `trigger_alert` (lib.rs lines 20-58).  Account validation first:
the `alert` account is `init` at seeds `[alert, alert_counter]`, failing if
occupied.  The body requires `alert_type <= 2`, fills the record, increments
the counter (checked u64 add) and emits `AlertTriggered`. -/
def trigger_alert (s : AlertState) (now : Int) (tourist : Pubkey)
    (alert_type : Nat) (location : String) (description : String) :
    Except AlertError (AlertState × List AlertEvent) :=
  match s.config with
  | none => .error .NotInit
  | some config =>
      if (s.alerts config.alert_counter).isSome then .error .RecordAlreadyExists
      else if alert_type > 2 then .error .InvalidAlertType
      else if config.alert_counter + 1 ≥ U64_MOD then .error .Overflow
      else
        let a : Alert :=
          { alert_id := config.alert_counter, tourist := tourist,
            alert_type := alert_type, location := location,
            description := description, timestamp := now, is_active := true }
        .ok ({ s with
                config := some { config with alert_counter := config.alert_counter + 1 },
                alerts := fun n => if n = config.alert_counter then some a else s.alerts n },
             [.AlertTriggered config.alert_counter tourist alert_type location description now])

/-- Handler `resolve_alert` (lib.rs lines 60-81).  The body first requires
`alert.is_active` (else `AlertAlreadyResolved`), then requires the signer to
be the alert's tourist or the registry authority (else `Unauthorized`), then
sets `is_active = false` and emits `AlertResolved`. -/
def resolve_alert (s : AlertState) (now : Int) (tourist : Pubkey) (alert_id : Nat) :
    Except AlertError (AlertState × List AlertEvent) :=
  match s.config with
  | none => .error .NotInit
  | some config =>
      match s.alerts alert_id with
      | none => .error .AccountNotFound
      | some a =>
          if a.is_active = false then .error .AlertAlreadyResolved
          else if ¬ (a.tourist = tourist ∨ config.authority = tourist) then
            .error .Unauthorized
          else
            .ok ({ s with
                    alerts := fun n =>
                      if n = alert_id then some { a with is_active := false }
                      else s.alerts n },
                 [.AlertResolved a.alert_id tourist now])

/-- Handler `add_emergency_contact` (lib.rs lines 83-102).  Account
validation: the config account carries `constraint = authority == signer`
(raw constraint, no custom error), and the contact account is `init` at seeds
`[emergency_contact, contact_type]`, failing if occupied.  The body fills the
record and emits `EmergencyContactAdded`. -/
def add_emergency_contact (s : AlertState) (authority : Pubkey)
    (contact_address : Pubkey) (contact_type : String) :
    Except AlertError (AlertState × List AlertEvent) :=
  match s.config with
  | none => .error .NotInit
  | some config =>
      if ¬ (config.authority = authority) then .error .ConstraintViolation
      else if (s.contacts contact_type).isSome then .error .RecordAlreadyExists
      else
        .ok ({ s with
                contacts := fun t =>
                  if t = contact_type then
                    some { contact_type := contact_type,
                           contact_address := contact_address,
                           authority := authority }
                  else s.contacts t },
             [.EmergencyContactAdded contact_type contact_address])

/-! ## Temporary Access NFT program (`programs/temporary-access-nft/src/lib.rs`) -/

/-- Account `ProgramConfig`: the singleton registry (authority + counter). -/
structure ProgramConfig where
  authority : Pubkey
  nft_counter : Nat
  deriving DecidableEq, Repr

/-- Account `AccessNft`: one credential record, addressed by its `nft_id`. -/
structure AccessNft where
  nft_id : Nat
  tourist_id_hash : List Nat
  zone_id : String
  expiry_timestamp : Int
  tourist_wallet : Pubkey
  is_valid : Bool
  metadata_uri : String
  minted_at : Int
  deriving DecidableEq, Repr

/-- The persisted state of the temporary-access-nft program. -/
structure NftState where
  config : Option ProgramConfig
  nfts : Nat → Option AccessNft

/-- Events emitted by `emit!` in the temporary-access-nft program. -/
inductive NftEvent where
  | AccessNftMinted (nft_id : Nat) (tourist_wallet : Pubkey)
      (tourist_id_hash : List Nat) (zone_id : String) (expiry_timestamp : Int)
      (metadata_uri : String) (minted_at : Int)
  | AccessVerified (nft_id : Nat) (tourist_wallet : Pubkey) (zone_id : String)
      (is_valid : Bool) (verified_at : Int)
  | PassRevoked (nft_id : Nat) (tourist_wallet : Pubkey) (zone_id : String)
      (revoked_by : Pubkey) (revoked_at : Int)
  | MetadataUpdated (nft_id : Nat) (new_metadata_uri : String) (updated_at : Int)
  deriving DecidableEq, Repr

/-- Failure modes of the temporary-access-nft program.  The `Unauthorized`
variant stands for the failure of the `constraint = program_config.authority
== authority.key()` account check on `RevokePass` / `UpdateMetadata` — the
program's authorization failure.  `ConstraintViolation` stands for the raw
wallet/zone constraints on `VerifyAccess`. -/
inductive NftError where
  | InvalidExpiryTime
  | PassAlreadyRevoked
  | Unauthorized
  | NftNotFound
  | AccessExpired
  | ConstraintViolation
  | RecordAlreadyExists
  | AccountNotFound
  | AlreadyInit
  | NotInit
  | Overflow
  deriving DecidableEq, Repr

/-- Handler `initialize`: creates the singleton `ProgramConfig` with
`authority = caller`, `nft_counter = 0`; `init` fails if it already exists. -/
def initNftConfig (s : NftState) (caller : Pubkey) :
    Except NftError (NftState × List NftEvent) :=
  match s.config with
  | some _ => .error .AlreadyInit
  | none =>
      .ok ({ s with config := some { authority := caller, nft_counter := 0 } }, [])

/-- Handler `mint_access_nft` (lib.rs lines 28-70).  Account validation: the
`access_nft` account is `init` at seeds `[access_nft, nft_counter]`, failing
if occupied.  The body requires `expiry_timestamp > now`, fills the record
with `is_valid = true`, `minted_at = now`, `nft_id = nft_counter`, increments
the counter (checked u64 add) and emits `AccessNftMinted`. -/
def mint_access_nft (s : NftState) (now : Int) (tourist : Pubkey)
    (tourist_id_hash : List Nat) (zone_id : String) (expiry_timestamp : Int)
    (metadata_uri : String) :
    Except NftError (NftState × List NftEvent) :=
  match s.config with
  | none => .error .NotInit
  | some config =>
      if (s.nfts config.nft_counter).isSome then .error .RecordAlreadyExists
      else if ¬ (expiry_timestamp > now) then .error .InvalidExpiryTime
      else if config.nft_counter + 1 ≥ U64_MOD then .error .Overflow
      else
        let nft : AccessNft :=
          { nft_id := config.nft_counter, tourist_id_hash := tourist_id_hash,
            zone_id := zone_id, expiry_timestamp := expiry_timestamp,
            tourist_wallet := tourist, is_valid := true,
            metadata_uri := metadata_uri, minted_at := now }
        .ok ({ s with
                config := some { config with nft_counter := config.nft_counter + 1 },
                nfts := fun n => if n = config.nft_counter then some nft else s.nfts n },
             [.AccessNftMinted config.nft_counter tourist tourist_id_hash zone_id
                expiry_timestamp metadata_uri now])

/-- Handler `verify_access` (lib.rs lines 74-99) together with its account
struct `VerifyAccess` (lines 190-200).  Account validation: the `access_nft`
account must deserialize and satisfies `constraint = access_nft.tourist_wallet
== tourist_wallet` and `constraint = access_nft.zone_id == zone_id`; a
mismatch aborts the whole instruction.  The body then recomputes
`is_valid && wallet match && zone match && expiry > now`, emits
`AccessVerified` with that outcome, never writes to the account, and returns
the boolean. -/
def verify_access (s : NftState) (now : Int) (nft_id : Nat)
    (tourist_wallet : Pubkey) (zone_id : String) :
    Except NftError (Bool × NftState × List NftEvent) :=
  match s.nfts nft_id with
  | none => .error .AccountNotFound
  | some nft =>
      if ¬ (nft.tourist_wallet = tourist_wallet) then .error .ConstraintViolation
      else if ¬ (nft.zone_id = zone_id) then .error .ConstraintViolation
      else
        let is_ok := nft.is_valid
          && decide (nft.tourist_wallet = tourist_wallet)
          && decide (nft.zone_id = zone_id)
          && decide (nft.expiry_timestamp > now)
        .ok (is_ok, s,
             [.AccessVerified nft.nft_id tourist_wallet zone_id is_ok now])

/-- Handler `revoke_pass` (lib.rs lines 103-124) with account struct
`RevokePass` (lines 202-220).  Account validation: the `access_nft` account
must exist, then the config account carries `constraint =
program_config.authority == authority.key()` (the authorization check).  The
body requires `access_nft.is_valid` (else `PassAlreadyRevoked`), sets
`is_valid = false` and emits `PassRevoked`. -/
def revoke_pass (s : NftState) (now : Int) (authority : Pubkey) (nft_id : Nat) :
    Except NftError (NftState × List NftEvent) :=
  match s.nfts nft_id with
  | none => .error .AccountNotFound
  | some nft =>
      match s.config with
      | none => .error .NotInit
      | some config =>
          if ¬ (config.authority = authority) then .error .Unauthorized
          else if nft.is_valid = false then .error .PassAlreadyRevoked
          else
            .ok ({ s with
                    nfts := fun n =>
                      if n = nft_id then some { nft with is_valid := false }
                      else s.nfts n },
                 [.PassRevoked nft.nft_id nft.tourist_wallet nft.zone_id authority now])

/-- Handler `update_metadata` (lib.rs lines 127-143) with account struct
`UpdateMetadata` (lines 222-240).  Account validation: the `access_nft`
account must exist and the config account carries the authority constraint.
The body unconditionally overwrites `metadata_uri` and emits
`MetadataUpdated`. -/
def update_metadata (s : NftState) (now : Int) (authority : Pubkey)
    (nft_id : Nat) (new_metadata_uri : String) :
    Except NftError (NftState × List NftEvent) :=
  match s.nfts nft_id with
  | none => .error .AccountNotFound
  | some nft =>
      match s.config with
      | none => .error .NotInit
      | some config =>
          if ¬ (config.authority = authority) then .error .Unauthorized
          else
            .ok ({ s with
                    nfts := fun n =>
                      if n = nft_id then some { nft with metadata_uri := new_metadata_uri }
                      else s.nfts n },
                 [.MetadataUpdated nft.nft_id new_metadata_uri now])

/-! ## Traces of operations (for the temporal and uniqueness claims) -/

/-- One invocation of the emergency-alert program with its arguments. -/
inductive AlertOp where
  | initOp (caller : Pubkey)
  | trigger (now : Int) (tourist : Pubkey) (alert_type : Nat)
      (location : String) (description : String)
  | resolve (now : Int) (tourist : Pubkey) (alert_id : Nat)
  | addContact (authority : Pubkey) (contact_address : Pubkey) (contact_type : String)

/-- Dispatch one emergency-alert invocation. -/
def runAlertOp (s : AlertState) (op : AlertOp) :
    Except AlertError (AlertState × List AlertEvent) :=
  match op with
  | .initOp c => initAlertRegistry s c
  | .trigger now t ty l d => trigger_alert s now t ty l d
  | .resolve now t i => resolve_alert s now t i
  | .addContact a ca ct => add_emergency_contact s a ca ct

/-- Transaction semantics on state alone: a failed invocation commits
nothing. -/
def applyAlert (s : AlertState) (op : AlertOp) : AlertState :=
  match runAlertOp s op with
  | .ok (s2, _) => s2
  | .error _ => s

/-- Transaction semantics with the accumulated event log. -/
def stepAlert (p : AlertState × List AlertEvent) (op : AlertOp) :
    AlertState × List AlertEvent :=
  match runAlertOp p.1 op with
  | .ok (s2, ev) => (s2, p.2 ++ ev)
  | .error _ => p

/-- Run a sequence of emergency-alert invocations, collecting emitted events. -/
def runAlertOps (s : AlertState) (ops : List AlertOp) :
    AlertState × List AlertEvent :=
  ops.foldl stepAlert (s, [])

/-- One invocation of the temporary-access-nft program with its arguments. -/
inductive NftOp where
  | initOp (caller : Pubkey)
  | mint (now : Int) (tourist : Pubkey) (tourist_id_hash : List Nat)
      (zone_id : String) (expiry_timestamp : Int) (metadata_uri : String)
  | verify (now : Int) (nft_id : Nat) (tourist_wallet : Pubkey) (zone_id : String)
  | revoke (now : Int) (authority : Pubkey) (nft_id : Nat)
  | update (now : Int) (authority : Pubkey) (nft_id : Nat) (new_metadata_uri : String)

/-- Dispatch one temporary-access-nft invocation (dropping `verify_access`'s
returned boolean, which is also recorded in its event). -/
def runNftOp (s : NftState) (op : NftOp) :
    Except NftError (NftState × List NftEvent) :=
  match op with
  | .initOp c => initNftConfig s c
  | .mint now t idh z e u => mint_access_nft s now t idh z e u
  | .verify now i w z =>
      match verify_access s now i w z with
      | .ok (_, s2, ev) => .ok (s2, ev)
      | .error e => .error e
  | .revoke now a i => revoke_pass s now a i
  | .update now a i u => update_metadata s now a i u

/-- Transaction semantics on state alone. -/
def applyNft (s : NftState) (op : NftOp) : NftState :=
  match runNftOp s op with
  | .ok (s2, _) => s2
  | .error _ => s

/-- Transaction semantics with the accumulated event log. -/
def stepNft (p : NftState × List NftEvent) (op : NftOp) :
    NftState × List NftEvent :=
  match runNftOp p.1 op with
  | .ok (s2, ev) => (s2, p.2 ++ ev)
  | .error _ => p

/-- Run a sequence of temporary-access-nft invocations. -/
def runNftOps (s : NftState) (ops : List NftOp) : NftState × List NftEvent :=
  ops.foldl stepNft (s, [])

/-- Alert ids assigned by creations, as recorded in `AlertTriggered` events. -/
def triggeredIds : List AlertEvent → List Nat
  | [] => []
  | .AlertTriggered i _ _ _ _ _ :: es => i :: triggeredIds es
  | .AlertResolved _ _ _ :: es => triggeredIds es
  | .EmergencyContactAdded _ _ :: es => triggeredIds es

/-- Credential ids assigned by creations, as recorded in `AccessNftMinted`
events. -/
def mintedIds : List NftEvent → List Nat
  | [] => []
  | .AccessNftMinted i _ _ _ _ _ _ :: es => i :: mintedIds es
  | .AccessVerified _ _ _ _ _ :: es => mintedIds es
  | .PassRevoked _ _ _ _ _ :: es => mintedIds es
  | .MetadataUpdated _ _ _ :: es => mintedIds es

/-- The boolean a `verify_access` call returns, when it succeeds. -/
def verifyRet (r : Except NftError (Bool × NftState × List NftEvent)) : Option Bool :=
  match r with
  | .ok (b, _, _) => some b
  | .error _ => none

/-- The events a `verify_access` call emits (a failed transaction emits
none). -/
def verifyEvents (r : Except NftError (Bool × NftState × List NftEvent)) :
    List NftEvent :=
  match r with
  | .ok (_, _, ev) => ev
  | .error _ => []

/-- Whether an invocation succeeded. -/
def isSuccess {ε α : Type} (r : Except ε α) : Bool :=
  match r with
  | .ok _ => true
  | .error _ => false

/-! ## Concrete states used by counterexamples and witnesses -/

/-- Config fixture: authority 9, next id 1. -/
def alertCfg0 : EmergencyAlertConfig := { authority := 9, alert_counter := 1 }

/-- Resolved alert fixture (reporter 5). -/
def alertResolved0 : Alert :=
  { alert_id := 0, tourist := 5, alert_type := 0, location := "loc",
    description := "desc", timestamp := 0, is_active := false }

/-- Active alert fixture (reporter 5). -/
def alertActive0 : Alert := { alertResolved0 with is_active := true }

/-- Alert-program state holding one resolved alert. -/
def sAlertResolved : AlertState :=
  { config := some alertCfg0,
    alerts := fun n => if n = 0 then some alertResolved0 else none,
    contacts := fun _ => none }

/-- Alert-program state holding one active alert. -/
def sAlertActive : AlertState :=
  { config := some alertCfg0,
    alerts := fun n => if n = 0 then some alertActive0 else none,
    contacts := fun _ => none }

/-- Freshly initialized alert-program state (authority 9, counter 0). -/
def sAlertEmpty : AlertState :=
  { config := some { authority := 9, alert_counter := 0 },
    alerts := fun _ => none, contacts := fun _ => none }

/-- Config fixture for the NFT program: authority 9, next id 1. -/
def nftCfg0 : ProgramConfig := { authority := 9, nft_counter := 1 }

/-- Valid credential fixture (holder 1, zone Z1, expiry 100). -/
def nftValid0 : AccessNft :=
  { nft_id := 0, tourist_id_hash := [], zone_id := "Z1", expiry_timestamp := 100,
    tourist_wallet := 1, is_valid := true, metadata_uri := "uri", minted_at := 0 }

/-- Already-revoked credential fixture. -/
def nftRevoked0 : AccessNft := { nftValid0 with is_valid := false }

/-- NFT-program state holding one valid credential. -/
def sNftValid : NftState :=
  { config := some nftCfg0, nfts := fun n => if n = 0 then some nftValid0 else none }

/-- NFT-program state holding one revoked credential. -/
def sNftRevoked : NftState :=
  { config := some nftCfg0, nfts := fun n => if n = 0 then some nftRevoked0 else none }

/-- Freshly initialized NFT-program state (authority 9, counter 0). -/
def sNftEmpty : NftState :=
  { config := some { authority := 9, nft_counter := 0 }, nfts := fun _ => none }

/-! ## Characterization lemmas for successful invocations -/

theorem initAlertRegistry_ok (s : AlertState) (caller : Pubkey) (s2 : AlertState)
    (ev : List AlertEvent) (h : initAlertRegistry s caller = .ok (s2, ev)) :
    s.config = none ∧
    s2 = { s with config := some { authority := caller, alert_counter := 0 } } ∧
    ev = [] := by
  unfold initAlertRegistry at h
  cases hcfg : s.config with
  | some c => rw [hcfg] at h; exact absurd h (by simp)
  | none =>
      rw [hcfg] at h
      injection h with h1
      injection h1 with ha hb
      exact ⟨rfl, ha.symm, hb.symm⟩

theorem trigger_alert_ok (s : AlertState) (now : Int) (t : Pubkey) (ty : Nat)
    (l d : String) (s2 : AlertState) (ev : List AlertEvent)
    (h : trigger_alert s now t ty l d = .ok (s2, ev)) :
    ∃ c, s.config = some c ∧ s.alerts c.alert_counter = none ∧ ty ≤ 2 ∧
      c.alert_counter + 1 < U64_MOD ∧
      s2 = { s with
              config := some { c with alert_counter := c.alert_counter + 1 },
              alerts := fun n =>
                if n = c.alert_counter then
                  some { alert_id := c.alert_counter, tourist := t, alert_type := ty,
                         location := l, description := d, timestamp := now,
                         is_active := true }
                else s.alerts n } ∧
      ev = [.AlertTriggered c.alert_counter t ty l d now] := by
  unfold trigger_alert at h
  split at h
  · exact absurd h (by simp)
  · rename_i c hcfg
    refine ⟨c, hcfg, ?_⟩
    split at h
    · exact absurd h (by simp)
    · split at h
      · exact absurd h (by simp)
      · split at h
        · exact absurd h (by simp)
        · rename_i h1 h2 h3
          injection h with h4
          injection h4 with ha hb
          exact ⟨Option.not_isSome_iff_eq_none.mp h1, not_lt.mp h2,
            not_le.mp h3, ha.symm, hb.symm⟩

theorem resolve_alert_ok (s : AlertState) (now : Int) (t : Pubkey) (i : Nat)
    (s2 : AlertState) (ev : List AlertEvent)
    (h : resolve_alert s now t i = .ok (s2, ev)) :
    ∃ c a, s.config = some c ∧ s.alerts i = some a ∧ a.is_active = true ∧
      (a.tourist = t ∨ c.authority = t) ∧
      s2 = { s with
              alerts := fun n =>
                if n = i then some { a with is_active := false } else s.alerts n } ∧
      ev = [.AlertResolved a.alert_id t now] := by
  unfold resolve_alert at h
  split at h
  · exact absurd h (by simp)
  · rename_i c hcfg
    split at h
    · exact absurd h (by simp)
    · rename_i a ha
      refine ⟨c, a, hcfg, ha, ?_⟩
      split at h
      · exact absurd h (by simp)
      · split at h
        · exact absurd h (by simp)
        · rename_i h1 h2
          injection h with h4
          injection h4 with hs he
          refine ⟨by simpa using h1, not_not.mp h2, hs.symm, he.symm⟩

theorem add_emergency_contact_ok (s : AlertState) (a ca : Pubkey) (ct : String)
    (s2 : AlertState) (ev : List AlertEvent)
    (h : add_emergency_contact s a ca ct = .ok (s2, ev)) :
    ∃ c, s.config = some c ∧ c.authority = a ∧ s.contacts ct = none ∧
      s2 = { s with
              contacts := fun t =>
                if t = ct then
                  some { contact_type := ct, contact_address := ca, authority := a }
                else s.contacts t } ∧
      ev = [.EmergencyContactAdded ct ca] := by
  unfold add_emergency_contact at h
  split at h
  · exact absurd h (by simp)
  · rename_i c hcfg
    refine ⟨c, hcfg, ?_⟩
    split at h
    · exact absurd h (by simp)
    · split at h
      · exact absurd h (by simp)
      · rename_i h1 h2
        injection h with h4
        injection h4 with hs he
        exact ⟨not_not.mp h1, Option.not_isSome_iff_eq_none.mp h2, hs.symm, he.symm⟩

theorem initNftConfig_ok (s : NftState) (caller : Pubkey) (s2 : NftState)
    (ev : List NftEvent) (h : initNftConfig s caller = .ok (s2, ev)) :
    s.config = none ∧
    s2 = { s with config := some { authority := caller, nft_counter := 0 } } ∧
    ev = [] := by
  unfold initNftConfig at h
  cases hcfg : s.config with
  | some c => rw [hcfg] at h; exact absurd h (by simp)
  | none =>
      rw [hcfg] at h
      injection h with h1
      injection h1 with ha hb
      exact ⟨rfl, ha.symm, hb.symm⟩

theorem mint_access_nft_ok (s : NftState) (now : Int) (t : Pubkey)
    (idh : List Nat) (z : String) (e : Int) (u : String)
    (s2 : NftState) (ev : List NftEvent)
    (h : mint_access_nft s now t idh z e u = .ok (s2, ev)) :
    ∃ c, s.config = some c ∧ s.nfts c.nft_counter = none ∧ e > now ∧
      c.nft_counter + 1 < U64_MOD ∧
      s2 = { s with
              config := some { c with nft_counter := c.nft_counter + 1 },
              nfts := fun n =>
                if n = c.nft_counter then
                  some { nft_id := c.nft_counter, tourist_id_hash := idh, zone_id := z,
                         expiry_timestamp := e, tourist_wallet := t, is_valid := true,
                         metadata_uri := u, minted_at := now }
                else s.nfts n } ∧
      ev = [.AccessNftMinted c.nft_counter t idh z e u now] := by
  unfold mint_access_nft at h
  split at h
  · exact absurd h (by simp)
  · rename_i c hcfg
    refine ⟨c, hcfg, ?_⟩
    split at h
    · exact absurd h (by simp)
    · split at h
      · exact absurd h (by simp)
      · split at h
        · exact absurd h (by simp)
        · rename_i h1 h2 h3
          injection h with h4
          injection h4 with hs he
          exact ⟨Option.not_isSome_iff_eq_none.mp h1, not_not.mp h2,
            not_le.mp h3, hs.symm, he.symm⟩

theorem verify_access_cases (s : NftState) (now : Int) (i : Nat) (r : AccessNft)
    (w : Pubkey) (z : String) (hr : s.nfts i = some r) :
    (r.tourist_wallet = w → r.zone_id = z →
      verify_access s now i w z =
        .ok (r.is_valid && decide (r.expiry_timestamp > now), s,
             [.AccessVerified r.nft_id w z
                (r.is_valid && decide (r.expiry_timestamp > now)) now])) ∧
    (¬ (r.tourist_wallet = w ∧ r.zone_id = z) →
      verify_access s now i w z = .error .ConstraintViolation) := by
  constructor
  · intro h1 h2
    unfold verify_access
    rw [hr]
    simp [h1, h2]
  · intro h12
    unfold verify_access
    rw [hr]
    by_cases h1 : r.tourist_wallet = w
    · have h2 : ¬ r.zone_id = z := fun h2 => h12 ⟨h1, h2⟩
      simp [h1, h2]
    · simp [h1]

theorem verify_access_ok (s : NftState) (now : Int) (i : Nat) (w : Pubkey)
    (z : String) (b : Bool) (s2 : NftState) (ev : List NftEvent)
    (h : verify_access s now i w z = .ok (b, s2, ev)) :
    ∃ r, s.nfts i = some r ∧ s2 = s ∧
      ev = [.AccessVerified r.nft_id w z b now] := by
  unfold verify_access at h
  split at h
  · exact absurd h (by simp)
  · rename_i r hr
    refine ⟨r, hr, ?_⟩
    split at h
    · exact absurd h (by simp)
    · split at h
      · exact absurd h (by simp)
      · injection h with h4
        injection h4 with hb h5
        injection h5 with hs he
        subst hb
        exact ⟨hs.symm, he.symm⟩

theorem revoke_pass_cases (s : NftState) (now : Int) (a : Pubkey) (i : Nat)
    (c : ProgramConfig) (r : AccessNft) (hc : s.config = some c)
    (hr : s.nfts i = some r) :
    (¬ c.authority = a → revoke_pass s now a i = .error .Unauthorized) ∧
    (c.authority = a → r.is_valid = false →
      revoke_pass s now a i = .error .PassAlreadyRevoked) ∧
    (c.authority = a → r.is_valid = true →
      revoke_pass s now a i =
        .ok ({ s with
                nfts := fun n =>
                  if n = i then some { r with is_valid := false } else s.nfts n },
             [.PassRevoked r.nft_id r.tourist_wallet r.zone_id a now])) := by
  refine ⟨?_, ?_, ?_⟩
  · intro h1
    unfold revoke_pass
    rw [hr, hc]
    simp [h1]
  · intro h1 h2
    unfold revoke_pass
    rw [hr, hc]
    simp [h1, h2]
  · intro h1 h2
    unfold revoke_pass
    rw [hr, hc]
    simp [h1, h2]

theorem revoke_pass_ok (s : NftState) (now : Int) (a : Pubkey) (i : Nat)
    (s2 : NftState) (ev : List NftEvent)
    (h : revoke_pass s now a i = .ok (s2, ev)) :
    ∃ c r, s.config = some c ∧ s.nfts i = some r ∧ c.authority = a ∧
      r.is_valid = true ∧
      s2 = { s with
              nfts := fun n =>
                if n = i then some { r with is_valid := false } else s.nfts n } ∧
      ev = [.PassRevoked r.nft_id r.tourist_wallet r.zone_id a now] := by
  unfold revoke_pass at h
  split at h
  · exact absurd h (by simp)
  · rename_i r hr
    split at h
    · exact absurd h (by simp)
    · rename_i c hcfg
      refine ⟨c, r, hcfg, hr, ?_⟩
      split at h
      · exact absurd h (by simp)
      · split at h
        · exact absurd h (by simp)
        · rename_i h1 h2
          injection h with h4
          injection h4 with hs he
          refine ⟨not_not.mp h1, by simpa using h2, hs.symm, he.symm⟩

theorem update_metadata_cases (s : NftState) (now : Int) (a : Pubkey) (i : Nat)
    (u : String) (c : ProgramConfig) (r : AccessNft) (hc : s.config = some c)
    (hr : s.nfts i = some r) :
    (¬ c.authority = a → update_metadata s now a i u = .error .Unauthorized) ∧
    (c.authority = a →
      update_metadata s now a i u =
        .ok ({ s with
                nfts := fun n =>
                  if n = i then some { r with metadata_uri := u } else s.nfts n },
             [.MetadataUpdated r.nft_id u now])) := by
  constructor
  · intro h1
    unfold update_metadata
    rw [hr, hc]
    simp [h1]
  · intro h1
    unfold update_metadata
    rw [hr, hc]
    simp [h1]

theorem update_metadata_ok (s : NftState) (now : Int) (a : Pubkey) (i : Nat)
    (u : String) (s2 : NftState) (ev : List NftEvent)
    (h : update_metadata s now a i u = .ok (s2, ev)) :
    ∃ c r, s.config = some c ∧ s.nfts i = some r ∧ c.authority = a ∧
      s2 = { s with
              nfts := fun n =>
                if n = i then some { r with metadata_uri := u } else s.nfts n } ∧
      ev = [.MetadataUpdated r.nft_id u now] := by
  unfold update_metadata at h
  split at h
  · exact absurd h (by simp)
  · rename_i r hr
    split at h
    · exact absurd h (by simp)
    · rename_i c hcfg
      refine ⟨c, r, hcfg, hr, ?_⟩
      split at h
      · exact absurd h (by simp)
      · rename_i h1
        injection h with h4
        injection h4 with hs he
        exact ⟨not_not.mp h1, hs.symm, he.symm⟩

/-! ## Preservation of the terminal flags (for C6) -/

theorem runAlertOp_preserves_inactive (s : AlertState) (op : AlertOp)
    (s2 : AlertState) (ev : List AlertEvent) (hrun : runAlertOp s op = .ok (s2, ev))
    (i : Nat) (a : Alert) (ha : s.alerts i = some a) (hact : a.is_active = false) :
    ∃ a2, s2.alerts i = some a2 ∧ a2.is_active = false := by
  cases op with
  | initOp c =>
      obtain ⟨h1, h2, h3⟩ := initAlertRegistry_ok s c s2 ev hrun
      subst h2
      exact ⟨a, ha, hact⟩
  | trigger now t ty l d =>
      obtain ⟨c, hc, hfree, hty, hcap, h2, h3⟩ :=
        trigger_alert_ok s now t ty l d s2 ev hrun
      subst h2
      by_cases hi : i = c.alert_counter
      · rw [hi] at ha; rw [ha] at hfree; exact absurd hfree (by simp)
      · exact ⟨a, by simp [hi, ha], hact⟩
  | resolve now t j =>
      obtain ⟨c, b, hc, hb, hbact, hauth, h2, h3⟩ :=
        resolve_alert_ok s now t j s2 ev hrun
      subst h2
      by_cases hi : i = j
      · subst hi
        rw [ha] at hb
        injection hb with hb2
        subst hb2
        rw [hact] at hbact
        exact absurd hbact (by simp)
      · exact ⟨a, by simp [hi, ha], hact⟩
  | addContact x y ct =>
      obtain ⟨c, hc, hauth, hfree, h2, h3⟩ :=
        add_emergency_contact_ok s x y ct s2 ev hrun
      subst h2
      exact ⟨a, ha, hact⟩

theorem applyAlert_preserves_inactive (s : AlertState) (op : AlertOp) (i : Nat)
    (a : Alert) (ha : s.alerts i = some a) (hact : a.is_active = false) :
    ∃ a2, (applyAlert s op).alerts i = some a2 ∧ a2.is_active = false := by
  unfold applyAlert
  cases hrun : runAlertOp s op with
  | error e => exact ⟨a, ha, hact⟩
  | ok q =>
      obtain ⟨s2, ev⟩ := q
      exact runAlertOp_preserves_inactive s op s2 ev hrun i a ha hact

theorem foldl_applyAlert_preserves_inactive (ops : List AlertOp) (s : AlertState)
    (i : Nat) (a : Alert) (ha : s.alerts i = some a) (hact : a.is_active = false) :
    ∃ a2, (ops.foldl applyAlert s).alerts i = some a2 ∧ a2.is_active = false := by
  induction ops generalizing s a with
  | nil => exact ⟨a, ha, hact⟩
  | cons op ops ih =>
      obtain ⟨a2, ha2, hact2⟩ := applyAlert_preserves_inactive s op i a ha hact
      exact ih (applyAlert s op) a2 ha2 hact2

theorem runNftOp_verify_ok (s : NftState) (now : Int) (j : Nat) (w : Pubkey)
    (z : String) (s2 : NftState) (ev : List NftEvent)
    (hrun : runNftOp s (.verify now j w z) = .ok (s2, ev)) :
    ∃ r b, s.nfts j = some r ∧ s2 = s ∧
      ev = [.AccessVerified r.nft_id w z b now] := by
  have hrun2 : (match verify_access s now j w z with
      | .ok (_, s3, ev3) => (Except.ok (s3, ev3) : Except NftError (NftState × List NftEvent))
      | .error e => Except.error e) = Except.ok (s2, ev) := hrun
  cases hv : verify_access s now j w z with
  | error e => rw [hv] at hrun2; exact absurd hrun2 (by simp)
  | ok q =>
      obtain ⟨b, s3, ev3⟩ := q
      rw [hv] at hrun2
      injection hrun2 with h4
      injection h4 with hs he
      obtain ⟨r, hr, hs3, hev3⟩ := verify_access_ok s now j w z b s3 ev3 hv
      exact ⟨r, b, hr, by rw [← hs, hs3], by rw [← he, hev3]⟩

theorem runNftOp_preserves_revoked (s : NftState) (op : NftOp)
    (s2 : NftState) (ev : List NftEvent) (hrun : runNftOp s op = .ok (s2, ev))
    (i : Nat) (r : AccessNft) (hr : s.nfts i = some r) (hval : r.is_valid = false) :
    ∃ r2, s2.nfts i = some r2 ∧ r2.is_valid = false := by
  cases op with
  | initOp c =>
      obtain ⟨h1, h2, h3⟩ := initNftConfig_ok s c s2 ev hrun
      subst h2
      exact ⟨r, hr, hval⟩
  | mint now t idh z e u =>
      obtain ⟨c, hc, hfree, he2, hcap, h2, h3⟩ :=
        mint_access_nft_ok s now t idh z e u s2 ev hrun
      subst h2
      by_cases hi : i = c.nft_counter
      · rw [hi] at hr; rw [hr] at hfree; exact absurd hfree (by simp)
      · exact ⟨r, by simp [hi, hr], hval⟩
  | verify now j w z =>
      obtain ⟨r3, b, hr3, hs, hev⟩ := runNftOp_verify_ok s now j w z s2 ev hrun
      subst hs
      exact ⟨r, hr, hval⟩
  | revoke now a j =>
      obtain ⟨c, b, hc, hb, hauth, hbval, h2, h3⟩ := revoke_pass_ok s now a j s2 ev hrun
      subst h2
      by_cases hi : i = j
      · subst hi
        rw [hr] at hb
        injection hb with hb2
        subst hb2
        rw [hval] at hbval
        exact absurd hbval (by simp)
      · exact ⟨r, by simp [hi, hr], hval⟩
  | update now a j u =>
      obtain ⟨c, b, hc, hb, hauth, h2, h3⟩ := update_metadata_ok s now a j u s2 ev hrun
      subst h2
      by_cases hi : i = j
      · subst hi
        rw [hr] at hb
        injection hb with hb2
        subst hb2
        exact ⟨{ r with metadata_uri := u }, by simp, hval⟩
      · exact ⟨r, by simp [hi, hr], hval⟩

theorem applyNft_preserves_revoked (s : NftState) (op : NftOp) (i : Nat)
    (r : AccessNft) (hr : s.nfts i = some r) (hval : r.is_valid = false) :
    ∃ r2, (applyNft s op).nfts i = some r2 ∧ r2.is_valid = false := by
  unfold applyNft
  cases hrun : runNftOp s op with
  | error e => exact ⟨r, hr, hval⟩
  | ok q =>
      obtain ⟨s2, ev⟩ := q
      exact runNftOp_preserves_revoked s op s2 ev hrun i r hr hval

theorem foldl_applyNft_preserves_revoked (ops : List NftOp) (s : NftState)
    (i : Nat) (r : AccessNft) (hr : s.nfts i = some r) (hval : r.is_valid = false) :
    ∃ r2, (ops.foldl applyNft s).nfts i = some r2 ∧ r2.is_valid = false := by
  induction ops generalizing s r with
  | nil => exact ⟨r, hr, hval⟩
  | cons op ops ih =>
      obtain ⟨r2, hr2, hval2⟩ := applyNft_preserves_revoked s op i r hr hval
      exact ih (applyNft s op) r2 hr2 hval2

/-! ## Strict monotonicity of assigned sequence numbers (for C7) -/

theorem triggeredIds_append (xs ys : List AlertEvent) :
    triggeredIds (xs ++ ys) = triggeredIds xs ++ triggeredIds ys := by
  induction xs with
  | nil => rfl
  | cons x xs ih => cases x <;> simp [triggeredIds, ih]

theorem mintedIds_append (xs ys : List NftEvent) :
    mintedIds (xs ++ ys) = mintedIds xs ++ mintedIds ys := by
  induction xs with
  | nil => rfl
  | cons x xs ih => cases x <;> simp [mintedIds, ih]

/-- Invariant tying the accumulated event log to the registry counter: the
assigned alert ids are strictly increasing and all below the current
counter. -/
def alertTraceInv (p : AlertState × List AlertEvent) : Prop :=
  List.Pairwise (· < ·) (triggeredIds p.2) ∧
  ∀ i ∈ triggeredIds p.2, ∃ c, p.1.config = some c ∧ i < c.alert_counter

theorem stepAlert_traceInv (p : AlertState × List AlertEvent) (op : AlertOp)
    (h : alertTraceInv p) : alertTraceInv (stepAlert p op) := by
  obtain ⟨s, acc⟩ := p
  unfold stepAlert
  cases hrun : runAlertOp s op with
  | error e => exact h
  | ok q =>
      obtain ⟨s2, ev⟩ := q
      cases op with
      | initOp c =>
          obtain ⟨hnone, h2, h3⟩ := initAlertRegistry_ok s c s2 ev hrun
          subst h2 h3
          constructor
          · simpa [triggeredIds_append, triggeredIds] using h.1
          · intro i hi
            have hi2 : i ∈ triggeredIds acc := by
              simpa [triggeredIds_append, triggeredIds] using hi
            obtain ⟨c0, hc0, hlt⟩ := h.2 i hi2
            rw [hnone] at hc0
            exact absurd hc0 (by simp)
      | trigger now t ty l d =>
          obtain ⟨c, hc, hfree, hty, hcap, h2, h3⟩ :=
            trigger_alert_ok s now t ty l d s2 ev hrun
          subst h2 h3
          constructor
          · rw [triggeredIds_append, List.pairwise_append]
            refine ⟨h.1, by simp [triggeredIds], ?_⟩
            intro x hx y hy
            obtain ⟨c0, hc0, hlt⟩ := h.2 x hx
            rw [hc] at hc0
            injection hc0 with hc0
            subst hc0
            simp only [triggeredIds, List.mem_cons, List.not_mem_nil, or_false] at hy
            subst hy
            exact hlt
          · intro i hi
            rw [triggeredIds_append] at hi
            refine ⟨{ c with alert_counter := c.alert_counter + 1 }, rfl, ?_⟩
            rcases List.mem_append.mp hi with hi | hi
            · obtain ⟨c0, hc0, hlt⟩ := h.2 i hi
              rw [hc] at hc0
              injection hc0 with hc0
              subst hc0
              exact Nat.lt_succ_of_lt hlt
            · simp only [triggeredIds, List.mem_cons, List.not_mem_nil, or_false] at hi
              subst hi
              exact Nat.lt_succ_self _
      | resolve now t j =>
          obtain ⟨c, a, hc, ha2, hact, hau, h2, h3⟩ :=
            resolve_alert_ok s now t j s2 ev hrun
          subst h2 h3
          constructor
          · simpa [triggeredIds_append, triggeredIds] using h.1
          · intro i hi
            have hi2 : i ∈ triggeredIds acc := by
              simpa [triggeredIds_append, triggeredIds] using hi
            obtain ⟨c0, hc0, hlt⟩ := h.2 i hi2
            exact ⟨c0, hc0, hlt⟩
      | addContact x y ct =>
          obtain ⟨c, hc, hauth, hfree, h2, h3⟩ :=
            add_emergency_contact_ok s x y ct s2 ev hrun
          subst h2 h3
          constructor
          · simpa [triggeredIds_append, triggeredIds] using h.1
          · intro i hi
            have hi2 : i ∈ triggeredIds acc := by
              simpa [triggeredIds_append, triggeredIds] using hi
            obtain ⟨c0, hc0, hlt⟩ := h.2 i hi2
            exact ⟨c0, hc0, hlt⟩

theorem foldl_stepAlert_traceInv (ops : List AlertOp)
    (p : AlertState × List AlertEvent) (h : alertTraceInv p) :
    alertTraceInv (ops.foldl stepAlert p) := by
  induction ops generalizing p with
  | nil => exact h
  | cons op ops ih => exact ih (stepAlert p op) (stepAlert_traceInv p op h)

/-- Invariant tying the accumulated event log to the credential counter. -/
def nftTraceInv (p : NftState × List NftEvent) : Prop :=
  List.Pairwise (· < ·) (mintedIds p.2) ∧
  ∀ i ∈ mintedIds p.2, ∃ c, p.1.config = some c ∧ i < c.nft_counter

theorem stepNft_traceInv (p : NftState × List NftEvent) (op : NftOp)
    (h : nftTraceInv p) : nftTraceInv (stepNft p op) := by
  obtain ⟨s, acc⟩ := p
  unfold stepNft
  cases hrun : runNftOp s op with
  | error e => exact h
  | ok q =>
      obtain ⟨s2, ev⟩ := q
      cases op with
      | initOp c =>
          obtain ⟨hnone, h2, h3⟩ := initNftConfig_ok s c s2 ev hrun
          subst h2 h3
          constructor
          · simpa [mintedIds_append, mintedIds] using h.1
          · intro i hi
            have hi2 : i ∈ mintedIds acc := by
              simpa [mintedIds_append, mintedIds] using hi
            obtain ⟨c0, hc0, hlt⟩ := h.2 i hi2
            rw [hnone] at hc0
            exact absurd hc0 (by simp)
      | mint now t idh z e u =>
          obtain ⟨c, hc, hfree, he2, hcap, h2, h3⟩ :=
            mint_access_nft_ok s now t idh z e u s2 ev hrun
          subst h2 h3
          constructor
          · rw [mintedIds_append, List.pairwise_append]
            refine ⟨h.1, by simp [mintedIds], ?_⟩
            intro x hx y hy
            obtain ⟨c0, hc0, hlt⟩ := h.2 x hx
            rw [hc] at hc0
            injection hc0 with hc0
            subst hc0
            simp only [mintedIds, List.mem_cons, List.not_mem_nil, or_false] at hy
            subst hy
            exact hlt
          · intro i hi
            rw [mintedIds_append] at hi
            refine ⟨{ c with nft_counter := c.nft_counter + 1 }, rfl, ?_⟩
            rcases List.mem_append.mp hi with hi | hi
            · obtain ⟨c0, hc0, hlt⟩ := h.2 i hi
              rw [hc] at hc0
              injection hc0 with hc0
              subst hc0
              exact Nat.lt_succ_of_lt hlt
            · simp only [mintedIds, List.mem_cons, List.not_mem_nil, or_false] at hi
              subst hi
              exact Nat.lt_succ_self _
      | verify now j w z =>
          obtain ⟨r, b, hr, hs, hev⟩ := runNftOp_verify_ok s now j w z s2 ev hrun
          subst hs hev
          constructor
          · simpa [mintedIds_append, mintedIds] using h.1
          · intro i hi
            have hi2 : i ∈ mintedIds acc := by
              simpa [mintedIds_append, mintedIds] using hi
            obtain ⟨c0, hc0, hlt⟩ := h.2 i hi2
            exact ⟨c0, hc0, hlt⟩
      | revoke now a j =>
          obtain ⟨c, r, hc, hb, hauth, hrv, h2, h3⟩ := revoke_pass_ok s now a j s2 ev hrun
          subst h2 h3
          constructor
          · simpa [mintedIds_append, mintedIds] using h.1
          · intro i hi
            have hi2 : i ∈ mintedIds acc := by
              simpa [mintedIds_append, mintedIds] using hi
            obtain ⟨c0, hc0, hlt⟩ := h.2 i hi2
            exact ⟨c0, hc0, hlt⟩
      | update now a j u =>
          obtain ⟨c, r, hc, hb, hauth, h2, h3⟩ := update_metadata_ok s now a j u s2 ev hrun
          subst h2 h3
          constructor
          · simpa [mintedIds_append, mintedIds] using h.1
          · intro i hi
            have hi2 : i ∈ mintedIds acc := by
              simpa [mintedIds_append, mintedIds] using hi
            obtain ⟨c0, hc0, hlt⟩ := h.2 i hi2
            exact ⟨c0, hc0, hlt⟩

theorem foldl_stepNft_traceInv (ops : List NftOp)
    (p : NftState × List NftEvent) (h : nftTraceInv p) :
    nftTraceInv (ops.foldl stepNft p) := by
  induction ops generalizing p with
  | nil => exact h
  | cons op ops ih => exact ih (stepNft p op) (stepNft_traceInv p op h)

/-! ## Claim theorems -/

/-- Claim C1, counterexample to the claim as frozen: with the stored
credential `nftValid0` (holder 1, zone Z1, valid, expiry 100) and only the
holder condition flipped (expected holder 2 instead of 1), the claim says the
call returns `false`; instead the `VerifyAccess` account constraint
`access_nft.tourist_wallet == tourist_wallet` aborts the call with a
constraint violation, so no boolean is returned at all. -/
theorem verify_access_holder_mismatch_errors :
    verify_access sNftValid 0 0 2 "Z1" = .error .ConstraintViolation ∧
    verifyRet (verify_access sNftValid 0 0 2 "Z1") ≠ some false := by
  refine ⟨rfl, ?_⟩
  intro hcontra
  rw [show verifyRet (verify_access sNftValid 0 0 2 "Z1") = none from rfl] at hcontra
  exact Option.noConfusion hcontra

/-- Claim C1 (amended): `verify_access` returns `true` iff the record's
`valid` flag is set, the holder matches, the zone matches, and the expiry time
is strictly greater than the current time.  Flipping the `valid` or expiry
condition flips the returned boolean to `false`; flipping the holder or zone
condition instead makes the call fail account validation with a constraint
violation, so it still does not return `true` (but does not return `false`
either). -/
theorem verify_access_result_characterization (s : NftState) (now : Int)
    (i : Nat) (r : AccessNft) (hw : Pubkey) (zw : String)
    (hr : s.nfts i = some r) :
    (verifyRet (verify_access s now i hw zw) = some true ↔
      (r.is_valid = true ∧ r.tourist_wallet = hw ∧ r.zone_id = zw ∧
        r.expiry_timestamp > now)) ∧
    (r.tourist_wallet = hw → r.zone_id = zw →
      verifyRet (verify_access s now i hw zw) =
        some (r.is_valid && decide (r.expiry_timestamp > now))) ∧
    (¬ (r.tourist_wallet = hw ∧ r.zone_id = zw) →
      verify_access s now i hw zw = .error .ConstraintViolation) := by
  obtain ⟨hok, herr⟩ := verify_access_cases s now i r hw zw hr
  refine ⟨⟨?_, ?_⟩, ?_, herr⟩
  · intro h
    by_cases h1 : r.tourist_wallet = hw
    · by_cases h2 : r.zone_id = zw
      · rw [hok h1 h2] at h
        simp only [verifyRet, Option.some.injEq, Bool.and_eq_true,
          decide_eq_true_eq] at h
        exact ⟨h.1, h1, h2, h.2⟩
      · rw [herr (fun hc => h2 hc.2)] at h
        exact Option.noConfusion h
    · rw [herr (fun hc => h1 hc.1)] at h
      exact Option.noConfusion h
  · rintro ⟨hv, h1, h2, h3⟩
    rw [hok h1 h2]
    simp [verifyRet, hv, h3]
  · intro h1 h2
    rw [hok h1 h2]
    rfl

/-- Witness for the amended C1: on the concrete valid credential, with all
four conditions holding, the call returns `true`. -/
theorem verify_access_result_characterization_witness :
    verifyRet (verify_access sNftValid 0 0 1 "Z1") = some true :=
  (verify_access_result_characterization sNftValid 0 0 nftValid0 1 "Z1" rfl).1.mpr
    ⟨rfl, rfl, rfl, by decide⟩

/-- Claim C2, counterexample to the claim as frozen: alert 0 of
`sAlertResolved` is already resolved (`active = false`), its reporter is 5 and
the family authority is 9; caller 7 is neither, so the claim says the call
fails with `Unauthorized` regardless of alert state — but the handler checks
`is_active` first and fails with `AlertAlreadyResolved`. -/
theorem resolve_alert_resolved_unauthorized_caller :
    resolve_alert sAlertResolved 1 7 0 = .error .AlertAlreadyResolved ∧
    resolve_alert sAlertResolved 1 7 0 ≠ .error .Unauthorized := by
  refine ⟨rfl, ?_⟩
  intro hcontra
  rw [show resolve_alert sAlertResolved 1 7 0 = .error .AlertAlreadyResolved
    from rfl] at hcontra
  injection hcontra with h2
  exact absurd h2 (by decide)

/-- Claim C2 (amended): for a caller that is neither the alert's reporter nor
the family authority, `resolve_alert` fails with `Unauthorized` when the
alert is still active, and with `AlertAlreadyResolved` when it is already
resolved — the already-resolved check precedes the authorization check. -/
theorem resolve_alert_check_order (s : AlertState) (now : Int) (caller : Pubkey)
    (i : Nat) (c : EmergencyAlertConfig) (a : Alert)
    (hc : s.config = some c) (ha : s.alerts i = some a)
    (h1 : a.tourist ≠ caller) (h2 : c.authority ≠ caller) :
    resolve_alert s now caller i =
      .error (if a.is_active = true then .Unauthorized else .AlertAlreadyResolved) := by
  unfold resolve_alert
  rw [hc, ha]
  cases hact : a.is_active with
  | false => simp [hact]
  | true =>
      have h3 : ¬ (a.tourist = caller ∨ c.authority = caller) := by
        intro h4
        rcases h4 with h4 | h4
        · exact h1 h4
        · exact h2 h4
      simp [hact, h3]

/-- Witness for the amended C2: on the concrete active alert, the
unauthorized caller 7 gets `Unauthorized`. -/
theorem resolve_alert_check_order_witness :
    resolve_alert sAlertActive 1 7 0 =
      .error (if alertActive0.is_active = true then .Unauthorized
              else .AlertAlreadyResolved) :=
  resolve_alert_check_order sAlertActive 1 7 0 alertCfg0 alertActive0 rfl rfl
    (by decide) (by decide)

/-- Claim C3, counterexample to the claim as frozen: credential 0 of
`sNftRevoked` already has `valid = false`, so the claim says any revoke call
fails with `PassAlreadyRevoked`; but for caller 7 (not the authority 9) the
Anchor authority constraint is validated before the handler body, so the call
fails with the authorization error instead. -/
theorem revoke_pass_revoked_unauthorized_caller :
    revoke_pass sNftRevoked 1 7 0 = .error .Unauthorized ∧
    revoke_pass sNftRevoked 1 7 0 ≠ .error .PassAlreadyRevoked := by
  refine ⟨rfl, ?_⟩
  intro hcontra
  rw [show revoke_pass sNftRevoked 1 7 0 = .error .Unauthorized from rfl] at hcontra
  injection hcontra with h2
  exact absurd h2 (by decide)

/-- Claim C3 (amended): the authority check precedes the terminal check.  A
revoke call by any identity other than the family authority fails with the
authorization error regardless of the `valid` flag; a revoke by the authority
on a still-valid record succeeds and sets `valid = false` (changing nothing
else); a revoke by the authority on an already-revoked record fails with
`PassAlreadyRevoked` (and, the transaction having failed, leaves the record
unchanged). -/
theorem revoke_pass_check_order (s : NftState) (now : Int) (caller : Pubkey)
    (i : Nat) (c : ProgramConfig) (r : AccessNft) (hc : s.config = some c)
    (hr : s.nfts i = some r) :
    (c.authority ≠ caller → revoke_pass s now caller i = .error .Unauthorized) ∧
    (c.authority = caller → r.is_valid = false →
      revoke_pass s now caller i = .error .PassAlreadyRevoked) ∧
    (c.authority = caller → r.is_valid = true →
      revoke_pass s now caller i =
        .ok ({ s with
                nfts := fun n =>
                  if n = i then some { r with is_valid := false } else s.nfts n },
             [.PassRevoked r.nft_id r.tourist_wallet r.zone_id caller now])) :=
  revoke_pass_cases s now caller i c r hc hr

/-- Witness for the amended C3: the authority 9 successfully revokes the
concrete valid credential. -/
theorem revoke_pass_check_order_witness :
    revoke_pass sNftValid 1 9 0 =
      .ok ({ sNftValid with
              nfts := fun n =>
                if n = 0 then some { nftValid0 with is_valid := false }
                else sNftValid.nfts n },
           [.PassRevoked nftValid0.nft_id nftValid0.tourist_wallet
              nftValid0.zone_id 9 1]) :=
  (revoke_pass_check_order sNftValid 1 9 0 nftCfg0 nftValid0 rfl rfl).2.2 rfl rfl

/-- Claim C4: with the registry initialized, the slot at the current counter
free and the counter not at the u64 maximum (always the case in reachable
states), `mint_access_nft` fails with `InvalidExpiryTime` whenever
`expiry_timestamp ≤ now` (committing nothing), and succeeds whenever
`expiry_timestamp > now`, creating the record with `valid = true`,
`minted_at = now` and `nft_id` equal to the counter value at creation time,
and incrementing the counter by one. -/
theorem mint_access_nft_spec (s : NftState) (now : Int) (t : Pubkey)
    (idh : List Nat) (z : String) (e : Int) (u : String) (c : ProgramConfig)
    (hc : s.config = some c) (hfree : s.nfts c.nft_counter = none)
    (hcap : c.nft_counter + 1 < U64_MOD) :
    (e ≤ now → mint_access_nft s now t idh z e u = .error .InvalidExpiryTime) ∧
    (e > now → mint_access_nft s now t idh z e u =
      .ok ({ s with
              config := some { c with nft_counter := c.nft_counter + 1 },
              nfts := fun n =>
                if n = c.nft_counter then
                  some { nft_id := c.nft_counter, tourist_id_hash := idh,
                         zone_id := z, expiry_timestamp := e, tourist_wallet := t,
                         is_valid := true, metadata_uri := u, minted_at := now }
                else s.nfts n },
           [.AccessNftMinted c.nft_counter t idh z e u now])) := by
  have hfree2 : (s.nfts c.nft_counter).isSome = false := by rw [hfree]; rfl
  constructor
  · intro hle
    have h2 : ¬ e > now := not_lt.mpr hle
    unfold mint_access_nft
    rw [hc]
    simp [hfree2, h2]
  · intro hgt
    have h3 : ¬ (c.nft_counter + 1 ≥ U64_MOD) := not_le.mpr hcap
    unfold mint_access_nft
    rw [hc]
    simp [hfree2, hgt, h3]

/-- Witness for C4: a mint with future expiry on the freshly initialized
registry succeeds. -/
theorem mint_access_nft_spec_witness :
    isSuccess (mint_access_nft sNftEmpty 0 1 [] "Z1" 100 "uri") = true := by
  rw [(mint_access_nft_spec sNftEmpty 0 1 [] "Z1" 100 "uri"
        { authority := 9, nft_counter := 0 } rfl rfl (by decide)).2 (by decide)]
  rfl

/-- Claim C5: with the registry initialized, the slot at the current counter
free and the counter not at the u64 maximum (always the case in reachable
states), `trigger_alert` fails with `InvalidAlertType` whenever the category
is outside 0..2 (committing nothing), and otherwise creates the alert with
`alert_id` equal to the counter value before the call, `is_active = true`,
the caller as reporter and `now` as timestamp, increments the counter by
exactly one, and emits a single `AlertTriggered` event carrying those same
field values. -/
theorem trigger_alert_spec (s : AlertState) (now : Int) (t : Pubkey) (ty : Nat)
    (l d : String) (c : EmergencyAlertConfig) (hc : s.config = some c)
    (hfree : s.alerts c.alert_counter = none) (hcap : c.alert_counter + 1 < U64_MOD) :
    (2 < ty → trigger_alert s now t ty l d = .error .InvalidAlertType) ∧
    (ty ≤ 2 → trigger_alert s now t ty l d =
      .ok ({ s with
              config := some { c with alert_counter := c.alert_counter + 1 },
              alerts := fun n =>
                if n = c.alert_counter then
                  some { alert_id := c.alert_counter, tourist := t, alert_type := ty,
                         location := l, description := d, timestamp := now,
                         is_active := true }
                else s.alerts n },
           [.AlertTriggered c.alert_counter t ty l d now])) := by
  have hfree2 : (s.alerts c.alert_counter).isSome = false := by rw [hfree]; rfl
  constructor
  · intro hgt
    unfold trigger_alert
    rw [hc]
    simp [hfree2, hgt]
  · intro hle
    have h2 : ¬ ty > 2 := not_lt.mpr hle
    have h3 : ¬ (c.alert_counter + 1 ≥ U64_MOD) := not_le.mpr hcap
    unfold trigger_alert
    rw [hc]
    simp [hfree2, h2, h3]

/-- Witness for C5: a category-0 alert on the freshly initialized registry
succeeds. -/
theorem trigger_alert_spec_witness :
    isSuccess (trigger_alert sAlertEmpty 5 4 0 "here" "help") = true := by
  rw [(trigger_alert_spec sAlertEmpty 5 4 0 "here" "help"
        { authority := 9, alert_counter := 0 } rfl rfl (by decide)).2 (by decide)]
  rfl

/-- Claim C6: in every sequence of operations, once an alert record's
`is_active` flag is false it stays false (and the record persists), and once a
credential record's `is_valid` flag is false it stays false — no operation
ever sets either flag back to true, so each flag flips from true to false at
most once over a record's lifetime. -/
theorem terminal_flags_never_revert (s : AlertState) (t : NftState)
    (aops : List AlertOp) (nops : List NftOp) (i j : Nat) (a : Alert)
    (r : AccessNft) (ha : s.alerts i = some a) (hact : a.is_active = false)
    (hr : t.nfts j = some r) (hval : r.is_valid = false) :
    (∃ a2, (aops.foldl applyAlert s).alerts i = some a2 ∧ a2.is_active = false) ∧
    (∃ r2, (nops.foldl applyNft t).nfts j = some r2 ∧ r2.is_valid = false) :=
  ⟨foldl_applyAlert_preserves_inactive aops s i a ha hact,
   foldl_applyNft_preserves_revoked nops t j r hr hval⟩

/-- Witness for C6: after a further trigger on the resolved-alert state and a
metadata update on the revoked-credential state, both flags are still
false. -/
theorem terminal_flags_never_revert_witness :
    (∃ a2, ([AlertOp.trigger 1 5 0 "x" "y"].foldl applyAlert sAlertResolved).alerts 0 =
        some a2 ∧ a2.is_active = false) ∧
    (∃ r2, ([NftOp.update 1 9 0 "u2"].foldl applyNft sNftRevoked).nfts 0 =
        some r2 ∧ r2.is_valid = false) :=
  terminal_flags_never_revert sAlertResolved sNftRevoked
    [AlertOp.trigger 1 5 0 "x" "y"] [NftOp.update 1 9 0 "u2"] 0 0
    alertResolved0 nftRevoked0 rfl rfl rfl rfl

/-- Claim C7: over any run of either program from any state, the record ids
assigned by successful creations (each the registry counter at creation time,
the counter then being one greater) form a strictly increasing sequence, so
no two records of the same family ever receive the same id. -/
theorem assigned_ids_strictly_increasing (s : AlertState) (t : NftState)
    (aops : List AlertOp) (nops : List NftOp) :
    List.Pairwise (· < ·) (triggeredIds (runAlertOps s aops).2) ∧
    List.Pairwise (· < ·) (mintedIds (runNftOps t nops).2) := by
  constructor
  · exact (foldl_stepAlert_traceInv aops (s, [])
      ⟨List.Pairwise.nil, by simp [triggeredIds]⟩).1
  · exact (foldl_stepNft_traceInv nops (t, [])
      ⟨List.Pairwise.nil, by simp [mintedIds]⟩).1

/-- Claim C8, counterexample to the claim as frozen: with the zone argument
flipped (Z9 instead of the stored Z1), the claim says the call still emits
exactly one `AccessVerified` event; instead the `VerifyAccess` zone
constraint aborts the instruction, which therefore emits no event at all. -/
theorem verify_access_zone_mismatch_no_event :
    verifyEvents (verify_access sNftValid 0 0 1 "Z9") = [] ∧
    verify_access sNftValid 0 0 1 "Z9" = .error .ConstraintViolation :=
  ⟨rfl, rfl⟩

/-- Claim C8 (amended): whenever the holder and zone arguments match the
stored record (the `VerifyAccess` account constraints), the call emits
exactly one `AccessVerified` event carrying the computed outcome — including
when the outcome is a failed verification because the record is invalid or
expired — and returns the state unchanged; when either constraint argument
mismatches, the call fails account validation, emitting nothing and likewise
mutating nothing. -/
theorem verify_access_frame (s : NftState) (now : Int) (i : Nat) (r : AccessNft)
    (hw : Pubkey) (zw : String) (hr : s.nfts i = some r) :
    (r.tourist_wallet = hw → r.zone_id = zw →
      verify_access s now i hw zw =
        .ok (r.is_valid && decide (r.expiry_timestamp > now), s,
             [.AccessVerified r.nft_id hw zw
                (r.is_valid && decide (r.expiry_timestamp > now)) now])) ∧
    (¬ (r.tourist_wallet = hw ∧ r.zone_id = zw) →
      verify_access s now i hw zw = .error .ConstraintViolation) :=
  verify_access_cases s now i r hw zw hr

/-- Witness for the amended C8: a failed verification (revoked record) still
emits its one `AccessVerified` event and leaves the state untouched. -/
theorem verify_access_frame_witness :
    verify_access sNftRevoked 0 0 1 "Z1" =
      .ok (nftRevoked0.is_valid && decide (nftRevoked0.expiry_timestamp > 0),
           sNftRevoked,
           [.AccessVerified nftRevoked0.nft_id 1 "Z1"
              (nftRevoked0.is_valid && decide (nftRevoked0.expiry_timestamp > 0)) 0]) :=
  (verify_access_frame sNftRevoked 0 0 nftRevoked0 1 "Z1" rfl).1 rfl rfl

/-- Claim C9: `update_metadata` fails with the authorization error unless the
caller is the family authority; for the authority it always succeeds —
whatever the record's `valid` flag or expiry, and repeatably, since the
success case has no precondition on the record — overwriting only
`metadata_uri` and leaving every other field of the record, and every other
record, unchanged. -/
theorem update_metadata_spec (s : NftState) (now : Int) (caller : Pubkey)
    (i : Nat) (u : String) (c : ProgramConfig) (r : AccessNft)
    (hc : s.config = some c) (hr : s.nfts i = some r) :
    (c.authority ≠ caller → update_metadata s now caller i u = .error .Unauthorized) ∧
    (c.authority = caller →
      update_metadata s now caller i u =
        .ok ({ s with
                nfts := fun n =>
                  if n = i then some { r with metadata_uri := u } else s.nfts n },
             [.MetadataUpdated r.nft_id u now])) :=
  update_metadata_cases s now caller i u c r hc hr

/-- Witness for C9: the authority updates the metadata of the already-revoked
credential; the update succeeds and changes only `metadata_uri`. -/
theorem update_metadata_spec_witness :
    update_metadata sNftRevoked 2 9 0 "u2" =
      .ok ({ sNftRevoked with
              nfts := fun n =>
                if n = 0 then some { nftRevoked0 with metadata_uri := "u2" }
                else sNftRevoked.nfts n },
           [.MetadataUpdated nftRevoked0.nft_id "u2" 2]) :=
  (update_metadata_spec sNftRevoked 2 9 0 "u2" nftCfg0 nftRevoked0 rfl rfl).2 rfl

/-- Claim C10: `add_emergency_contact` succeeds exactly when the caller is
the registry authority and no contact record for the given `contact_type`
exists yet; on success it creates the contact record (storing the type, the
contact address and the authority) at the address derived from
`contact_type` and emits one `EmergencyContactAdded` event. -/
theorem add_emergency_contact_spec (s : AlertState) (caller addr : Pubkey)
    (ct : String) (c : EmergencyAlertConfig) (hc : s.config = some c) :
    (isSuccess (add_emergency_contact s caller addr ct) = true ↔
      (c.authority = caller ∧ s.contacts ct = none)) ∧
    (c.authority = caller → s.contacts ct = none →
      add_emergency_contact s caller addr ct =
        .ok ({ s with
                contacts := fun x =>
                  if x = ct then
                    some { contact_type := ct, contact_address := addr,
                           authority := caller }
                  else s.contacts x },
             [.EmergencyContactAdded ct addr])) := by
  have hsucc : ∀ hauth : c.authority = caller, ∀ hfree : s.contacts ct = none,
      add_emergency_contact s caller addr ct =
        .ok ({ s with
                contacts := fun x =>
                  if x = ct then
                    some { contact_type := ct, contact_address := addr,
                           authority := caller }
                  else s.contacts x },
             [.EmergencyContactAdded ct addr]) := by
    intro hauth hfree
    have hfree2 : (s.contacts ct).isSome = false := by rw [hfree]; rfl
    unfold add_emergency_contact
    rw [hc]
    simp [hauth, hfree2]
  refine ⟨⟨?_, ?_⟩, hsucc⟩
  · intro h
    cases hres : add_emergency_contact s caller addr ct with
    | error e => rw [hres] at h; exact absurd h (by simp [isSuccess])
    | ok q =>
        obtain ⟨s2, ev⟩ := q
        obtain ⟨c0, hc0, hauth, hfree, _, _⟩ :=
          add_emergency_contact_ok s caller addr ct s2 ev hres
        rw [hc] at hc0
        injection hc0 with hc0
        subst hc0
        exact ⟨hauth, hfree⟩
  · rintro ⟨hauth, hfree⟩
    rw [hsucc hauth hfree]
    rfl

/-- Witness for C10: the authority 9 adds a police contact to a state with no
contacts. -/
theorem add_emergency_contact_spec_witness :
    add_emergency_contact sAlertResolved 9 3 "police" =
      .ok ({ sAlertResolved with
              contacts := fun x =>
                if x = "police" then
                  some { contact_type := "police", contact_address := 3,
                         authority := 9 }
                else sAlertResolved.contacts x },
           [.EmergencyContactAdded "police" 3]) :=
  (add_emergency_contact_spec sAlertResolved 9 3 "police" alertCfg0 rfl).2 rfl rfl

end SmartTourist
